import Mathlib

/-!
Shallow embedding of the MicrosoftForumBot automation code
(`forum_bot.py`, `app.py`) for verification of its specification.

External collaborators (the Selenium browser driver, the cv2 image
library and the pytesseract OCR engine) are modelled as environment
records of functions; a Python call that may raise is an
`Except String` value, where `.error` stands for a raised exception.
Images are opaque tokens (`Img`): the pixel-level contents live outside
the embedded fragment, and every image transformation the code delegates
to cv2 is a field of the environment.  Control flow (selector cascades,
try/except structure, loops, accept/reject tests) is translated
statement by statement from the Python source.
-/

namespace MsForum

/-- Abstract pixel buffer (a captured screenshot or a cv2-transformed
rendering), identified only by a token. -/
structure Img where
  id : Nat
  deriving DecidableEq

/-- Bounding box of a connected component as returned by
`cv2.boundingRect` (forum_bot.py:310): `x`, `y` top-left corner,
`w`, `h` width and height in pixels. -/
structure Rect where
  x : Nat
  y : Nat
  w : Nat
  h : Nat
  deriving DecidableEq

/-- Left-to-right order on bounding boxes: comparison of the x
coordinate, the sort key of `digit_contours.sort(key=lambda x: x[0])`
(forum_bot.py:316). -/
def rectLe (a b : Rect) : Prop := a.x ≤ b.x

instance : DecidableRel rectLe := fun a b => Nat.decLe a.x b.x

instance : IsTotal Rect rectLe := ⟨fun a b => Nat.le_total a.x b.x⟩

instance : IsTrans Rect rectLe := ⟨fun _ _ _ hab hbc => Nat.le_trans hab hbc⟩

/-- Size filter of strategy 5 (forum_bot.py:312):
`if w > 8 and h > 12 and w < 40 and h < 35`. -/
def digit_size_ok (r : Rect) : Bool :=
  decide (8 < r.w) && decide (12 < r.h) && decide (r.w < 40) && decide (r.h < 35)

/-- The candidate digit boxes of one channel: components kept by the
size filter, sorted left to right by x coordinate
(forum_bot.py:308-316).  The Python `list.sort` is a stable ascending
sort; `List.insertionSort` is as well. -/
def channel_digit_rects (contours : List Rect) : List Rect :=
  List.insertionSort rectLe (contours.filter digit_size_ok)

/-- The Python `str.strip()` call: remove leading and trailing whitespace. -/
def py_strip (s : String) : String :=
  String.mk (((s.data.dropWhile Char.isWhitespace).reverse.dropWhile Char.isWhitespace).reverse)

/-- The empty-separator join of `filter(str.isdigit, s)` (forum_bot.py:338, 387, 451):
keep only the digit characters of a string. -/
def filter_digits (s : String) : String :=
  String.mk (s.data.filter Char.isDigit)

/-- The empty-separator join of `digits` (forum_bot.py:350): concatenation of the
recognized digit strings, in list order. -/
def join_strs : List String → String
  | [] => ""
  | s :: rest => s ++ join_strs rest

/-- The Python `needle in hay` substring test on character lists. -/
def chars_contain (needle : List Char) : List Char → Bool
  | [] => needle.isEmpty
  | c :: rest => needle.isPrefixOf (c :: rest) || chars_contain needle rest

/-- The Python `needle in hay` substring test on strings
(used by the URL checks, forum_bot.py:716, 1189). -/
def str_contains (hay needle : String) : Bool :=
  chars_contain needle.data hay.data

/-- A located page element.  `is_displayed` is a driver call and may
raise; `size_w`/`size_h` are the `element.size` entries;
`screenshot_as_png` is the captured rendering of the element (the PNG
decode of forum_bot.py:145-149 is folded into the same failure point). -/
structure Elem where
  is_displayed : Except String Bool
  size_w : Nat
  size_h : Nat
  screenshot_as_png : Except String Img

/-- Driver-state-changing actions performed by the CAPTCHA code paths:
the scroll-into-view script (forum_bot.py:140), a click on a refresh
control (forum_bot.py:485) and a page reload (forum_bot.py:493). -/
inductive DriverAct
  | scrollIntoView
  | clickRefreshControl
  | reloadPage
  deriving DecidableEq

/-- Refresh actions in the sense of the spec: clicking a refresh
control or reloading the page (scrolling is not one). -/
def is_refresh_act : DriverAct → Bool
  | DriverAct.clickRefreshControl => true
  | DriverAct.reloadPage => true
  | DriverAct.scrollIntoView => false

/-- Value produced by one processing strategy: strategies 1-4 produce a
processed image; strategy 5 may instead produce a digit string
(forum_bot.py:174). -/
inductive StratResult
  | img (i : Img)
  | str (s : String)
  deriving DecidableEq

/-- The five image processing strategies of forum_bot.py:160-166. -/
inductive Strat
  | s1
  | s2
  | s3
  | s4
  | s5
  deriving DecidableEq

/-- `strategies = [strategy_1, ..., strategy_5]` (forum_bot.py:160-166). -/
def strategy_list : List Strat := [Strat.s1, Strat.s2, Strat.s3, Strat.s4, Strat.s5]

/-- Environment of the CAPTCHA pipeline: the Selenium driver calls, the
cv2 pipelines of strategies 1-4 (grayscale/threshold, adaptive
threshold, CLAHE, edge map - forum_bot.py:197-276), the cv2 primitives
used inside strategy 5, and the pytesseract OCR call.  `resize_roi`
folds the crop `thresh[y:y+h, x:x+w]` and `cv2.resize` of
forum_bot.py:322-325 into one step on (thresholded image, box);
`image_to_string` takes the image and the config string. -/
structure CaptchaEnv where
  find_elements : String → Except String (List Elem)
  scroll_into_view_res : Except String Unit
  strat1 : Img → Except String Img
  strat2 : Img → Except String Img
  strat3 : Img → Except String Img
  strat4 : Img → Except String Img
  channels : Img → Except String (List Img)
  threshold_otsu : Img → Except String Img
  find_contours : Img → Except String (List Rect)
  resize_roi : Img → Rect → Except String Img
  image_to_string : Img → String → Except String String

/-- The nine OCR configurations of `_extract_text_from_image`
(forum_bot.py:368-378), in order. -/
def ocr_configs : List String :=
  ["\x2d-oem 3 \x2d-psm 8 -c tessedit_char_whitelist=0123456789",
   "\x2d-oem 3 \x2d-psm 7 -c tessedit_char_whitelist=0123456789",
   "\x2d-oem 3 \x2d-psm 6 -c tessedit_char_whitelist=0123456789",
   "\x2d-oem 3 \x2d-psm 13 -c tessedit_char_whitelist=0123456789",
   "\x2d-oem 3 \x2d-psm 10 -c tessedit_char_whitelist=0123456789",
   "\x2d-oem 3 \x2d-psm 8",
   "\x2d-oem 3 \x2d-psm 7",
   "\x2d-oem 3 \x2d-psm 6",
   "\x2d-oem 3 \x2d-psm 10"]

/-- The three per-digit OCR configurations of strategy 5
(forum_bot.py:328-332), in order. -/
def digit_configs : List String :=
  ["\x2d-oem 3 \x2d-psm 10 -c tessedit_char_whitelist=0123456789",
   "\x2d-oem 3 \x2d-psm 8 -c tessedit_char_whitelist=0123456789",
   "\x2d-oem 3 \x2d-psm 7 -c tessedit_char_whitelist=0123456789"]

/-- The CAPTCHA element selector cascade (forum_bot.py:83-94). -/
def canvas_selectors : List String :=
  ["canvas",
   "img[src*=\x27captcha\x27]",
   "img[src*=\x27verification\x27]",
   "div[style*=\x27background\x27]",
   "div[class*=\x27captcha\x27]",
   "div[class*=\x27verification\x27]",
   "div[id*=\x27captcha\x27]",
   "div[id*=\x27verification\x27]",
   "img[alt*=\x27captcha\x27]",
   "img[alt*=\x27verification\x27]"]

/-- Inner loop of `_extract_text_from_image` (forum_bot.py:380-397):
for each OCR config, run the engine (an exception skips to the next
config), strip the raw text and keep its digits, and accept the first
cleaned result that is non-empty and at least 3 characters long. -/
def extract_loop (env : CaptchaEnv) (img : Img) : List String → Option String
  | [] => none
  | c :: rest =>
    match env.image_to_string img c with
    | Except.error _ => extract_loop env img rest
    | Except.ok raw =>
      if filter_digits (py_strip raw) ≠ "" ∧ 3 ≤ (filter_digits (py_strip raw)).length then
        some (filter_digits (py_strip raw))
      else extract_loop env img rest

/-- `_extract_text_from_image` (forum_bot.py:366-400): whole-image OCR
over the nine configurations; `none` when every configuration fails. -/
def extract_text_from_image (env : CaptchaEnv) (img : Img) : Option String :=
  extract_loop env img ocr_configs

/-- Outcome of one OCR configuration in `_extract_text_from_image`:
the cleaned result when it passes the accept test, `none` otherwise
(a restatement of one iteration of `extract_loop`, used to phrase the
first-accepted-result property). -/
def config_accepted (env : CaptchaEnv) (img : Img) (c : String) : Option String :=
  match env.image_to_string img c with
  | Except.error _ => none
  | Except.ok raw =>
    if filter_digits (py_strip raw) ≠ "" ∧ 3 ≤ (filter_digits (py_strip raw)).length then
      some (filter_digits (py_strip raw))
    else none

/-- Per-digit OCR loop of strategy 5 (forum_bot.py:334-343): try the
three configs on the resized digit image; accept the first cleaned
result of exactly one digit; an exception skips to the next config. -/
def digit_ocr_loop (env : CaptchaEnv) (roi : Img) : List String → Option String
  | [] => none
  | c :: rest =>
    match env.image_to_string roi c with
    | Except.error _ => digit_ocr_loop env roi rest
    | Except.ok raw =>
      if filter_digits (py_strip raw) ≠ "" ∧ (filter_digits (py_strip raw)).length = 1 then
        some (filter_digits (py_strip raw))
      else digit_ocr_loop env roi rest

/-- One digit box of strategy 5 (forum_bot.py:320-346): crop and resize
the box (a cv2 step that may raise, aborting the whole channel), then
run the per-digit OCR loop; `some d` is an accepted digit, `none` a
box on which every config failed (the box is skipped). -/
def extract_digit (env : CaptchaEnv) (th : Img) (r : Rect) : Except String (Option String) :=
  match env.resize_roi th r with
  | Except.error e => Except.error e
  | Except.ok roi => Except.ok (digit_ocr_loop env roi digit_configs)

/-- The `digits` list built by strategy 5 for one channel
(forum_bot.py:319-346): accepted digits of the candidate boxes in list
order; a cv2 exception aborts the channel. -/
def channel_digits (env : CaptchaEnv) (th : Img) : List Rect → Except String (List String)
  | [] => Except.ok []
  | r :: rest =>
    match extract_digit env th r with
    | Except.error e => Except.error e
    | Except.ok od =>
      match channel_digits env th rest with
      | Except.error e => Except.error e
      | Except.ok ds =>
        Except.ok
          (match od with
           | some d => d :: ds
           | none => ds)

/-- Loop state of strategy 5 (forum_bot.py:296-297): the best combined
result and its confidence (`best_result = None`, `best_confidence = 0`),
plus the value of the Python variable `thresh` after the loop - `none`
while no channel has reached the threshold assignment (leaking the loop
variable is what `return thresh` at forum_bot.py:364 relies on). -/
structure S5State where
  best : Option String
  bestConf : Nat
  lastTh : Option Img

/-- One channel iteration of strategy 5 (forum_bot.py:299-359):
threshold the channel, find contours, filter and sort candidate boxes,
recognize each digit; if at least 3 digits were recognized and the
count beats the best confidence so far, record the joined string.  Any
cv2/OCR exception not handled deeper is caught by the per-channel
`except` and the loop continues. -/
def s5_channel_step (env : CaptchaEnv) (st : S5State) (g : Img) : S5State :=
  match env.threshold_otsu g with
  | Except.error _ => st
  | Except.ok th =>
    match env.find_contours th with
    | Except.error _ => { st with lastTh := some th }
    | Except.ok cs =>
      match channel_digits env th (channel_digit_rects cs) with
      | Except.error _ => { st with lastTh := some th }
      | Except.ok digits =>
        if digits ≠ [] ∧ 3 ≤ digits.length then
          if st.bestConf < digits.length then
            { best := some (join_strs digits), bestConf := digits.length, lastTh := some th }
          else { st with lastTh := some th }
        else { st with lastTh := some th }

/-- `_process_image_strategy_5` (forum_bot.py:278-364): extract the five
color channels (an exception here escapes to the strategy loop), fold
the per-channel step over them, and return the best digit string; with
no digit result, return the last computed `thresh` image - and when no
channel ever reached the threshold assignment, `return thresh` raises
`NameError` (unbound local), modelled as an error. -/
def process_image_strategy_5 (env : CaptchaEnv) (img : Img) : Except String StratResult :=
  match env.channels img with
  | Except.error e => Except.error e
  | Except.ok chans =>
    match (chans.foldl (s5_channel_step env) { best := none, bestConf := 0, lastTh := none }).best with
    | some s => Except.ok (StratResult.str s)
    | none =>
      match (chans.foldl (s5_channel_step env) { best := none, bestConf := 0, lastTh := none }).lastTh with
      | some th => Except.ok (StratResult.img th)
      | none => Except.error ("NameError: name thresh is not defined")

/-- Dispatch of `strategy(image)` (forum_bot.py:171): strategies 1-4 are
cv2 pipelines yielding an image; strategy 5 may yield a string. -/
def run_strategy (env : CaptchaEnv) (st : Strat) (img : Img) : Except String StratResult :=
  match st with
  | Strat.s1 => (env.strat1 img).map StratResult.img
  | Strat.s2 => (env.strat2 img).map StratResult.img
  | Strat.s3 => (env.strat3 img).map StratResult.img
  | Strat.s4 => (env.strat4 img).map StratResult.img
  | Strat.s5 => process_image_strategy_5 env img

/-- `captcha_text` of one strategy iteration (forum_bot.py:173-177):
strategy 5 with a string result uses it directly, every image result
goes through `_extract_text_from_image`.  A string result from a
strategy other than 5 cannot arise (strategies 1-4 return arrays);
pytesseract would reject it, modelled as `none`. -/
def strat_text (env : CaptchaEnv) (st : Strat) (sr : StratResult) : Option String :=
  match sr with
  | StratResult.str s => if st = Strat.s5 then some s else none
  | StratResult.img pim => extract_text_from_image env pim

/-- Strategy loop of `read_captcha_from_canvas` (forum_bot.py:168-189):
run each strategy in order (a raised exception moves to the next one),
and return the first `captcha_text` that is non-empty with at least 3
characters; `none` when all five strategies fail. -/
def strat_loop (env : CaptchaEnv) (img : Img) : List Strat → Option String
  | [] => none
  | st :: rest =>
    match run_strategy env st img with
    | Except.error _ => strat_loop env img rest
    | Except.ok sr =>
      match strat_text env st sr with
      | none => strat_loop env img rest
      | some t =>
        if t ≠ "" ∧ 3 ≤ t.length then some t else strat_loop env img rest

/-- Element scan for one selector (forum_bot.py:104-117): the first
element that is displayed and has width over 30 and height over 15; an
exception while checking an element skips that element. -/
def first_displayed_sized : List Elem → Option Elem
  | [] => none
  | e :: rest =>
    match e.is_displayed with
    | Except.error _ => first_displayed_sized rest
    | Except.ok d =>
      if d && decide (30 < e.size_w) && decide (15 < e.size_h) then some e
      else first_displayed_sized rest

/-- Selector cascade for the CAPTCHA element (forum_bot.py:99-123): an
exception from `find_elements` or an empty scan moves to the next
selector. -/
def find_canvas_loop (env : CaptchaEnv) : List String → Option Elem
  | [] => none
  | sel :: rest =>
    match env.find_elements sel with
    | Except.error _ => find_canvas_loop env rest
    | Except.ok elems =>
      match first_displayed_sized elems with
      | some e => some e
      | none => find_canvas_loop env rest

/-- Body of `read_captcha_from_canvas` before its top-level `except`
(forum_bot.py:76-189), with the trace of driver-state-changing actions
it performs.  No element found returns `None` (the debug listing of
forum_bot.py:127-136 only logs and swallows its own errors); then the
element is scrolled into view, screenshotted, and handed to the
strategy loop.  An `Except.error` is an exception escaping the body. -/
def read_captcha_body (env : CaptchaEnv) : Except String (Option String) × List DriverAct :=
  match find_canvas_loop env canvas_selectors with
  | none => (Except.ok none, [])
  | some el =>
    match env.scroll_into_view_res with
    | Except.error e => (Except.error e, [])
    | Except.ok _ =>
      match el.screenshot_as_png with
      | Except.error e => (Except.error e, [DriverAct.scrollIntoView])
      | Except.ok img =>
        (Except.ok (strat_loop env img strategy_list), [DriverAct.scrollIntoView])

/-- `read_captcha_from_canvas` with its action trace: the top-level
`try/except` (forum_bot.py:76, 191-195) turns every escaped exception
into `None`. -/
def read_captcha_run (env : CaptchaEnv) : Option String × List DriverAct :=
  match read_captcha_body env with
  | (Except.error _, tr) => (none, tr)
  | (Except.ok v, tr) => (v, tr)

/-- Public result of `read_captcha_from_canvas` (forum_bot.py:69-195). -/
def read_captcha_from_canvas (env : CaptchaEnv) : Option String :=
  (read_captcha_run env).1

/-- Result of `driver.find_element` for one refresh selector
(forum_bot.py:482-489): element missing (`NoSuchElementException`,
caught by the per-selector handler), another raised exception (escapes
to the outer handler), or an element found with its visibility. -/
inductive FindRes
  | noSuch
  | err (msg : String)
  | found (displayed : Bool)
  deriving DecidableEq

/-- Environment of `refresh_captcha`: the per-selector element lookup,
the click on a found refresh control, and `driver.refresh()`. -/
structure RefreshEnv where
  find_refresh : String → FindRes
  click_res : Except String Unit
  page_refresh_res : Except String Unit

/-- The refresh control selector cascade (forum_bot.py:469-478). -/
def refresh_selectors : List String :=
  ["button[title*=\x27refresh\x27]",
   "button[title*=\x27Refresh\x27]",
   "button[class*=\x27refresh\x27]",
   "button[class*=\x27reload\x27]",
   "img[alt*=\x27refresh\x27]",
   "img[alt*=\x27Refresh\x27]",
   "a[href*=\x27captcha\x27]",
   "a[href*=\x27verification\x27]"]

/-- Selector loop of `refresh_captcha` (forum_bot.py:480-495): click the
first displayed refresh control and return `True`; with none found,
reload the page and return `True`; any exception other than
`NoSuchElementException` reaches the outer handler, which returns
`False` (forum_bot.py:497-499).  The trace records the refresh actions
performed. -/
def refresh_loop (env : RefreshEnv) : List String → Bool × List DriverAct
  | [] =>
    match env.page_refresh_res with
    | Except.error _ => (false, [])
    | Except.ok _ => (true, [DriverAct.reloadPage])
  | sel :: rest =>
    match env.find_refresh sel with
    | FindRes.noSuch => refresh_loop env rest
    | FindRes.err _ => (false, [])
    | FindRes.found d =>
      if d then
        match env.click_res with
        | Except.error _ => (false, [])
        | Except.ok _ => (true, [DriverAct.clickRefreshControl])
      else refresh_loop env rest

/-- `refresh_captcha` (forum_bot.py:463-499) with its action trace. -/
def refresh_captcha (env : RefreshEnv) : Bool × List DriverAct :=
  refresh_loop env refresh_selectors

/-- Actions performed by `select_first_checkbox`: the scroll script
(forum_bot.py:745), the click on the Ant Design label wrapper
(forum_bot.py:750) and the direct click on the checkbox input
(forum_bot.py:758). -/
inductive CbAct
  | scrollToCheckbox
  | clickLabel
  | clickCheckbox
  deriving DecidableEq

/-- Environment of `select_first_checkbox`: locating the first-row
checkbox (`.ok b` = found with `is_selected() = b`, `.error` = the
lookup raised), the scroll script, the label lookup, the two clicks,
and the `is_selected()` value observed after each click. -/
structure CbEnv where
  find_checkbox : Except String Bool
  scroll_res : Except String Unit
  find_label : Except String Unit
  label_click : Except String Unit
  selected_after_label : Bool
  direct_click : Except String Unit
  selected_after_direct : Bool

/-- `select_first_checkbox` (forum_bot.py:730-769).  Result `some n` is
Python `return n`; `none` is the fall-through path (both clicks ran but
the box stayed unselected), where Python implicitly returns `None`.
Any exception inside the `try` hits the handler and returns 0.  An
already-selected checkbox returns 1 without performing any action. -/
def select_first_checkbox (env : CbEnv) : Option Nat × List CbAct :=
  match env.find_checkbox with
  | Except.error _ => (some 0, [])
  | Except.ok sel =>
    if sel then (some 1, [])
    else
      match env.scroll_res with
      | Except.error _ => (some 0, [])
      | Except.ok _ =>
        match env.find_label with
        | Except.error _ => (some 0, [CbAct.scrollToCheckbox])
        | Except.ok _ =>
          match env.label_click with
          | Except.error _ => (some 0, [CbAct.scrollToCheckbox])
          | Except.ok _ =>
            if env.selected_after_label then
              (some 1, [CbAct.scrollToCheckbox, CbAct.clickLabel])
            else
              match env.direct_click with
              | Except.error _ => (some 0, [CbAct.scrollToCheckbox, CbAct.clickLabel])
              | Except.ok _ =>
                if env.selected_after_direct then
                  (some 1, [CbAct.scrollToCheckbox, CbAct.clickLabel, CbAct.clickCheckbox])
                else
                  (none, [CbAct.scrollToCheckbox, CbAct.clickLabel, CbAct.clickCheckbox])

/-- Case-count bookkeeping of one monitoring cycle
(forum_bot.py:1251-1273): with a positive count differing from the
tracked count, log the transition and update the tracked count; with a
positive equal count, log nothing; with a zero count, log no transition
and reset the tracked count to 0.  Result: (new tracked count, logged
transition if any, as the pair old count to new count). -/
def monitor_case_step (last current : Nat) : Nat × Option (Nat × Nat) :=
  if 0 < current then
    if current ≠ last then (current, some (last, current)) else (last, none)
  else (0, none)

/-- Fold of `monitor_case_step` over a sequence of observed counts,
collecting the logged transitions; the tracked count starts at 0
(`last_case_count = 0`, forum_bot.py:1176). -/
def monitor_change_log_aux : Nat → List Nat → List (Nat × Nat)
  | _, [] => []
  | last, c :: rest =>
    match monitor_case_step last c with
    | (last2, some t) => t :: monitor_change_log_aux last2 rest
    | (last2, none) => monitor_change_log_aux last2 rest

/-- The change-log transitions produced by `continuous_monitor` over a
sequence of observed case counts. -/
def monitor_change_log (counts : List Nat) : List (Nat × Nat) :=
  monitor_change_log_aux 0 counts

/-- Outcome of one body execution of the `continuous_monitor` loop
(forum_bot.py:1179-1279): a `KeyboardInterrupt` raised during the
cycle, another exception escaping the cycle body, or normal completion
(errors of the inner case-checking `try` are already absorbed at
forum_bot.py:1275-1276 and count as normal completion). -/
inductive CycleEvent
  | interrupt
  | error (msg : String)
  | ok
  deriving DecidableEq

/-- Loop-level actions of `continuous_monitor`: the 5-second recovery
sleep of the outer handler (forum_bot.py:1287), the normal
between-cycles sleep (forum_bot.py:1279), and leaving the loop
(forum_bot.py:1283). -/
inductive MonAct
  | recoverySleep
  | intervalSleep
  | stopLoop
  deriving DecidableEq

/-- The `while True` loop of `continuous_monitor` (forum_bot.py:1178-1287)
over a finite prefix of cycle outcomes: `KeyboardInterrupt` breaks the
loop; any other exception is caught, logged and followed by the
recovery sleep before the next cycle; a normal cycle is followed by the
interval sleep.  An exhausted outcome list means the loop is still
running. -/
def continuous_monitor_trace : List CycleEvent → List MonAct
  | [] => []
  | CycleEvent.interrupt :: _ => [MonAct.stopLoop]
  | CycleEvent.error _ :: rest => MonAct.recoverySleep :: continuous_monitor_trace rest
  | CycleEvent.ok :: rest => MonAct.intervalSleep :: continuous_monitor_trace rest

/-- A login form field; only its visibility matters to the cascade.
`is_displayed` may raise, and in `login` such an exception escapes to
the outer handler (the per-selector handler only catches
`NoSuchElementException`). -/
structure FEl where
  displayed : Except String Bool

/-- Actions of the login flow: the three `clear()`+`send_keys` fills
(forum_bot.py:648-654, 676-678) and the sign-in click
(forum_bot.py:708-709). -/
inductive LoginAct
  | typeUsername (s : String)
  | typePassword (s : String)
  | typeVerification (s : String)
  | clickSignIn
  deriving DecidableEq

/-- Outcome of the interactive prompt `input(...)` of manual CAPTCHA
entry (forum_bot.py:663): a `KeyboardInterrupt`, another exception, or
a string entered by the operator. -/
inductive ManualRes
  | kbInterrupt
  | exc (msg : String)
  | entered (s : String)
  deriving DecidableEq

/-- Result of `driver.find_element` for one sign-in selector
(forum_bot.py:693-703). -/
inductive SignRes
  | noSuch
  | errS (msg : String)
  | found
  deriving DecidableEq

/-- Outcome of the sign-in button cascade. -/
inductive SignOutcome
  | found
  | missing
  | raised
  deriving DecidableEq

/-- Environment of `login` (forum_bot.py:525-728): navigation, the three
field cascades, the three fill operations, the interactive prompt, the
sign-in cascade and click, and the address observed after submission. -/
structure LoginEnv where
  navigate : Except String Unit
  find_username : String → Except String (List FEl)
  find_password : String → Except String (List FEl)
  find_verification : String → Except String (List FEl)
  type_username_res : Except String Unit
  type_password_res : Except String Unit
  type_verification_res : Except String Unit
  manual_input : ManualRes
  find_signin : String → SignRes
  click_signin_res : Except String Unit
  current_url : String

/-- The username field selector cascade (forum_bot.py:544-552). -/
def username_selectors : List String :=
  ["input[placeholder*=\x27account\x27]",
   "input[placeholder*=\x27Account\x27]",
   "input[name=\x27username\x27]",
   "input[name=\x27account\x27]",
   "input[type=\x27text\x27]",
   "input[placeholder*=\x27Please input account\x27]",
   "input[placeholder*=\x27please input account\x27]"]

/-- The password field selector cascade (forum_bot.py:554-561). -/
def password_selectors : List String :=
  ["input[placeholder*=\x27password\x27]",
   "input[placeholder*=\x27Password\x27]",
   "input[name=\x27password\x27]",
   "input[type=\x27password\x27]",
   "input[placeholder*=\x27Please input password\x27]",
   "input[placeholder*=\x27please input password\x27]"]

/-- The verification code field selector cascade (forum_bot.py:563-570). -/
def verification_selectors : List String :=
  ["input[placeholder*=\x27verification\x27]",
   "input[placeholder*=\x27Verification\x27]",
   "input[name=\x27verification\x27]",
   "input[name=\x27captcha\x27]",
   "input[placeholder*=\x27Verification code\x27]",
   "input[placeholder*=\x27verification code\x27]"]

/-- The sign-in button selector cascade (forum_bot.py:681-690). -/
def signin_selectors : List String :=
  ["//button[contains(text(), \x27Sign In\x27)]",
   "//input[@value=\x27Sign In\x27]",
   "//button[@type=\x27submit\x27]",
   "//input[@type=\x27submit\x27]",
   "//button[contains(text(), \x27Login\x27)]",
   "//button[contains(text(), \x27登录\x27)]",
   "button[type=\x27submit\x27]",
   "input[type=\x27submit\x27]"]

/-- First displayed element of the matches of one selector in the login
cascades (forum_bot.py:577-583); an `is_displayed` exception escapes. -/
def login_first_displayed : List FEl → Except String (Option FEl)
  | [] => Except.ok none
  | e :: rest =>
    match e.displayed with
    | Except.error msg => Except.error msg
    | Except.ok true => Except.ok (some e)
    | Except.ok false => login_first_displayed rest

/-- One field cascade of `login` (forum_bot.py:575-587): try each
selector in order and return the first displayed match; `find_elements`
does not raise `NoSuchElementException`, so a raised exception escapes
the cascade (the per-selector handler only catches that one type). -/
def find_field_loop (find : String → Except String (List FEl)) : List String → Except String (Option FEl)
  | [] => Except.ok none
  | sel :: rest =>
    match find sel with
    | Except.error e => Except.error e
    | Except.ok elems =>
      match login_first_displayed elems with
      | Except.error e => Except.error e
      | Except.ok (some f) => Except.ok (some f)
      | Except.ok none => find_field_loop find rest

/-- The sign-in button cascade (forum_bot.py:692-703):
`NoSuchElementException` moves to the next selector, any other
exception escapes, the first hit wins. -/
def find_signin_loop (f : String → SignRes) : List String → SignOutcome
  | [] => SignOutcome.missing
  | sel :: rest =>
    match f sel with
    | SignRes.noSuch => find_signin_loop f rest
    | SignRes.errS _ => SignOutcome.raised
    | SignRes.found => SignOutcome.found

/-- Verification code acquisition of `login` (forum_bot.py:656-674).
With a code argument, use it as is (no validation).  Without one,
prompt the operator: the stripped input is accepted only when non-empty
and at least 3 characters; every other outcome (short code,
`KeyboardInterrupt`, prompt failure) raises, which the outer handler
turns into a failed attempt - modelled as `none`. -/
def login_obtain_code (env : LoginEnv) : Option String → Option String
  | some c => some c
  | none =>
    match env.manual_input with
    | ManualRes.kbInterrupt => none
    | ManualRes.exc _ => none
    | ManualRes.entered s =>
      if py_strip s ≠ "" ∧ 3 ≤ (py_strip s).length then some (py_strip s) else none

/-- Marker of the authenticated application address (forum_bot.py:716). -/
def forum_url_marker : String := "MicrosoftForum"

/-- Marker of the login address (forum_bot.py:716). -/
def login_url_marker : String := "login"

/-- `login` (forum_bot.py:525-728) with its action trace.  Navigation,
the three field cascades, the three fills, code acquisition, the
sign-in cascade and click happen in source order; any raised exception
reaches the outer handler and the attempt returns `False`.  After the
click, the attempt succeeds when the address contains the forum marker
or no longer contains the login marker. -/
def login (env : LoginEnv) (username password : String) (verification_code : Option String) :
    Bool × List LoginAct :=
  match env.navigate with
  | Except.error _ => (false, [])
  | Except.ok _ =>
    match find_field_loop env.find_username username_selectors with
    | Except.error _ => (false, [])
    | Except.ok none => (false, [])
    | Except.ok (some _) =>
      match find_field_loop env.find_password password_selectors with
      | Except.error _ => (false, [])
      | Except.ok none => (false, [])
      | Except.ok (some _) =>
        match find_field_loop env.find_verification verification_selectors with
        | Except.error _ => (false, [])
        | Except.ok none => (false, [])
        | Except.ok (some _) =>
          match env.type_username_res with
          | Except.error _ => (false, [])
          | Except.ok _ =>
            match env.type_password_res with
            | Except.error _ => (false, [LoginAct.typeUsername username])
            | Except.ok _ =>
              match login_obtain_code env verification_code with
              | none => (false, [LoginAct.typeUsername username, LoginAct.typePassword password])
              | some code =>
                match env.type_verification_res with
                | Except.error _ =>
                  (false, [LoginAct.typeUsername username, LoginAct.typePassword password])
                | Except.ok _ =>
                  match find_signin_loop env.find_signin signin_selectors with
                  | SignOutcome.missing =>
                    (false, [LoginAct.typeUsername username, LoginAct.typePassword password,
                             LoginAct.typeVerification code])
                  | SignOutcome.raised =>
                    (false, [LoginAct.typeUsername username, LoginAct.typePassword password,
                             LoginAct.typeVerification code])
                  | SignOutcome.found =>
                    match env.click_signin_res with
                    | Except.error _ =>
                      (false, [LoginAct.typeUsername username, LoginAct.typePassword password,
                               LoginAct.typeVerification code])
                    | Except.ok _ =>
                      (decide (str_contains env.current_url forum_url_marker = true ∨
                               ¬ str_contains env.current_url login_url_marker = true),
                       [LoginAct.typeUsername username, LoginAct.typePassword password,
                        LoginAct.typeVerification code, LoginAct.clickSignIn])

/-- `api_complete_login` (app.py:340-368): reject a missing or empty
username, password or captcha with an error response (login is not
invoked); otherwise call `bot_instance.login(username, password,
captcha)` with the operator-supplied captcha, whatever its length. -/
def api_complete_login (env : LoginEnv) (username password captcha : Option String) :
    Bool × List LoginAct :=
  if username.getD ("") = "" ∨ password.getD ("") = "" ∨ captcha.getD ("") = "" then
    (false, [])
  else
    login env (username.getD ("")) (password.getD ("")) (some (captcha.getD ("")))

/-- A displayed 100 by 40 element whose screenshot succeeds: a plausible
CAPTCHA graphic for the concrete test environments. -/
def elemA : Elem :=
  { is_displayed := Except.ok true
    size_w := 100
    size_h := 40
    screenshot_as_png := Except.ok (Img.mk 0) }

/-- Base concrete CAPTCHA environment: the element is found at the
first selector, scrolling and the strategy pipelines succeed (identity
on the image token), strategy 5 finds no color channels, and the OCR
engine always raises. -/
def baseCaptchaEnv : CaptchaEnv :=
  { find_elements := fun _ => Except.ok [elemA]
    scroll_into_view_res := Except.ok ()
    strat1 := fun img => Except.ok img
    strat2 := fun img => Except.ok img
    strat3 := fun img => Except.ok img
    strat4 := fun img => Except.ok img
    channels := fun _ => Except.ok []
    threshold_otsu := fun img => Except.ok img
    find_contours := fun _ => Except.ok []
    resize_roi := fun img _ => Except.ok img
    image_to_string := fun _ _ => Except.error ("ocr unavailable") }

/-- Concrete environment whose OCR engine always returns `res`. -/
def mkOcrEnv (res : String) : CaptchaEnv :=
  { baseCaptchaEnv with image_to_string := fun _ _ => Except.ok res }

/-- Concrete environment where every recognition attempt fails: the OCR
engine always raises and strategy 5 finds no channels. -/
def allFailOcrEnv : CaptchaEnv := baseCaptchaEnv

/-- Concrete environment where the element screenshot raises. -/
def shotFailEnv : CaptchaEnv :=
  { baseCaptchaEnv with
      find_elements := fun _ =>
        Except.ok [{ elemA with screenshot_as_png := Except.error ("screenshot failed") }] }

/-- Concrete refresh environment: no refresh control exists and the
page reload succeeds. -/
def refreshNoneFoundEnv : RefreshEnv :=
  { find_refresh := fun _ => FindRes.noSuch
    click_res := Except.ok ()
    page_refresh_res := Except.ok () }

/-- Concrete checkbox environment whose first-row checkbox is found and
already selected. -/
def cbSelEnv : CbEnv :=
  { find_checkbox := Except.ok true
    scroll_res := Except.ok ()
    find_label := Except.ok ()
    label_click := Except.ok ()
    selected_after_label := true
    direct_click := Except.ok ()
    selected_after_direct := true }

/-- A displayed login form field. -/
def fElShown : FEl := { displayed := Except.ok true }

/-- Concrete login environment where every driver step succeeds, the
fields are found at the first selector, the interactive prompt yields
`man`, and the post-submit address is the authenticated forum page. -/
def loginOkEnv (man : ManualRes) : LoginEnv :=
  { navigate := Except.ok ()
    find_username := fun _ => Except.ok [fElShown]
    find_password := fun _ => Except.ok [fElShown]
    find_verification := fun _ => Except.ok [fElShown]
    type_username_res := Except.ok ()
    type_password_res := Except.ok ()
    type_verification_res := Except.ok ()
    manual_input := man
    find_signin := fun _ => SignRes.found
    click_signin_res := Except.ok ()
    current_url := "https://ixpt.itechwx.com/MicrosoftForum" }

lemma filter_digits_all (s : String) : (filter_digits s).data.all Char.isDigit = true := by
  apply List.all_eq_true.mpr
  intro c hc
  exact List.of_mem_filter hc

lemma extract_loop_props (env : CaptchaEnv) (img : Img) :
    ∀ cfgs t, extract_loop env img cfgs = some t →
      3 ≤ t.length ∧ t.data.all Char.isDigit = true := by
  intro cfgs
  induction cfgs with
  | nil => intro t h; simp [extract_loop] at h
  | cons c rest ih =>
    intro t h
    unfold extract_loop at h
    split at h
    next e heq => exact ih t h
    next raw heq =>
      split at h
      next hcond =>
        cases h
        exact ⟨hcond.2, filter_digits_all _⟩
      next hcond => exact ih t h

lemma digit_ocr_loop_digits (env : CaptchaEnv) (roi : Img) :
    ∀ cfgs d, digit_ocr_loop env roi cfgs = some d → d.data.all Char.isDigit = true := by
  intro cfgs
  induction cfgs with
  | nil => intro d h; simp [digit_ocr_loop] at h
  | cons c rest ih =>
    intro d h
    unfold digit_ocr_loop at h
    split at h
    next e heq => exact ih d h
    next raw heq =>
      split at h
      next hcond =>
        cases h
        exact filter_digits_all _
      next hcond => exact ih d h

lemma channel_digits_all (env : CaptchaEnv) (th : Img) :
    ∀ rects ds, channel_digits env th rects = Except.ok ds →
      ∀ d ∈ ds, d.data.all Char.isDigit = true := by
  intro rects
  induction rects with
  | nil =>
    intro ds h d hd
    unfold channel_digits at h
    cases h
    simp at hd
  | cons r rest ih =>
    intro ds h d hd
    unfold channel_digits at h
    split at h
    next e heq => cases h
    next od hx =>
      split at h
      next e heq => cases h
      next ds2 hrest =>
        cases h
        cases od with
        | none => exact ih ds2 hrest d hd
        | some d0 =>
          rcases List.mem_cons.mp hd with h1 | h2
          · subst h1
            unfold extract_digit at hx
            split at hx
            next e heq => cases hx
            next roi hroi =>
              injection hx with hx2
              exact digit_ocr_loop_digits env roi digit_configs d hx2
          · exact ih ds2 hrest d h2

lemma join_strs_all : ∀ ds : List String,
    (∀ d ∈ ds, d.data.all Char.isDigit = true) →
    (join_strs ds).data.all Char.isDigit = true := by
  intro ds
  induction ds with
  | nil => intro _; rfl
  | cons d rest ih =>
    intro h
    show (d ++ join_strs rest).data.all Char.isDigit = true
    rw [String.data_append, List.all_append]
    rw [h d (List.mem_cons_self d rest), ih (fun x hx => h x (List.mem_cons_of_mem d hx))]
    rfl

lemma s5_step_best (env : CaptchaEnv) (st : S5State) (g : Img)
    (hst : ∀ s, st.best = some s → s.data.all Char.isDigit = true) :
    ∀ s, (s5_channel_step env st g).best = some s → s.data.all Char.isDigit = true := by
  intro s h
  unfold s5_channel_step at h
  split at h
  next e heq => exact hst s h
  next th hth =>
    split at h
    next e heq => exact hst s h
    next cs hcs =>
      split at h
      next e heq => exact hst s h
      next digits hds =>
        split at h
        next hne =>
          split at h
          next hconf =>
            cases h
            exact join_strs_all digits (channel_digits_all env th _ digits hds)
          next hconf => exact hst s h
        next hne => exact hst s h

lemma s5_fold_best (env : CaptchaEnv) :
    ∀ (chans : List Img) (st : S5State),
      (∀ s, st.best = some s → s.data.all Char.isDigit = true) →
      ∀ s, (chans.foldl (s5_channel_step env) st).best = some s →
        s.data.all Char.isDigit = true := by
  intro chans
  induction chans with
  | nil => intro st hst s h; exact hst s h
  | cons g rest ih =>
    intro st hst s h
    exact ih (s5_channel_step env st g) (s5_step_best env st g hst) s h

lemma strategy5_str_digits (env : CaptchaEnv) (img : Img) (s : String)
    (h : process_image_strategy_5 env img = Except.ok (StratResult.str s)) :
    s.data.all Char.isDigit = true := by
  unfold process_image_strategy_5 at h
  split at h
  next e heq => cases h
  next chans hch =>
    split at h
    next b hb =>
      cases h
      exact s5_fold_best env chans _ (fun s2 h2 => by cases h2) s hb
    next hb =>
      split at h
      next th hlt => cases h
      next hlt => cases h

lemma run_strategy_str_digits (env : CaptchaEnv) (st : Strat) (img : Img) (s : String)
    (h : run_strategy env st img = Except.ok (StratResult.str s)) :
    s.data.all Char.isDigit = true := by
  cases st with
  | s5 => exact strategy5_str_digits env img s h
  | s1 =>
    unfold run_strategy at h
    cases hx : env.strat1 img <;> rw [hx] at h <;> simp [Except.map] at h
  | s2 =>
    unfold run_strategy at h
    cases hx : env.strat2 img <;> rw [hx] at h <;> simp [Except.map] at h
  | s3 =>
    unfold run_strategy at h
    cases hx : env.strat3 img <;> rw [hx] at h <;> simp [Except.map] at h
  | s4 =>
    unfold run_strategy at h
    cases hx : env.strat4 img <;> rw [hx] at h <;> simp [Except.map] at h

lemma strat_loop_props (env : CaptchaEnv) (img : Img) :
    ∀ sts t, strat_loop env img sts = some t →
      3 ≤ t.length ∧ t.data.all Char.isDigit = true := by
  intro sts
  induction sts with
  | nil => intro t h; simp [strat_loop] at h
  | cons st rest ih =>
    intro t h
    unfold strat_loop at h
    split at h
    next e heq => exact ih t h
    next sr hrs =>
      split at h
      next hct => exact ih t h
      next t0 hct =>
        split at h
        next hcond =>
          have ht : t0 = t := Option.some.inj h
          subst ht
          refine ⟨hcond.2, ?_⟩
          unfold strat_text at hct
          split at hct
          next s0 =>
            split at hct
            next h5 =>
              subst h5
              have hs : s0 = t0 := Option.some.inj hct
              subst hs
              exact run_strategy_str_digits env Strat.s5 img s0 hrs
            next h5 => cases hct
          next pim =>
            exact (extract_loop_props env pim ocr_configs t0 hct).2
        next hcond => exact ih t h

lemma read_body_shape (env : CaptchaEnv) :
    (∃ e, read_captcha_body env = (Except.error e, [])) ∨
    (∃ e, read_captcha_body env = (Except.error e, [DriverAct.scrollIntoView])) ∨
    read_captcha_body env = (Except.ok none, []) ∨
    ∃ img, read_captcha_body env =
      (Except.ok (strat_loop env img strategy_list), [DriverAct.scrollIntoView]) := by
  unfold read_captcha_body
  split
  next hfc => right; right; left; rfl
  next el hfc =>
    split
    next e hsc => left; exact ⟨e, rfl⟩
    next u hsc =>
      split
      next e hsh => right; left; exact ⟨e, rfl⟩
      next img hsh => right; right; right; exact ⟨img, rfl⟩

lemma read_run_no_refresh (env : CaptchaEnv) :
    (read_captcha_run env).2.countP is_refresh_act = 0 := by
  unfold read_captcha_run
  rcases read_body_shape env with ⟨e, hb⟩ | ⟨e, hb⟩ | hb | ⟨img, hb⟩ <;> rw [hb] <;> rfl

lemma refresh_loop_shape (env : RefreshEnv) :
    ∀ sels, refresh_loop env sels = (false, []) ∨
      refresh_loop env sels = (true, [DriverAct.clickRefreshControl]) ∨
      refresh_loop env sels = (true, [DriverAct.reloadPage]) := by
  intro sels
  induction sels with
  | nil =>
    cases hp : env.page_refresh_res with
    | error e => left; simp [refresh_loop, hp]
    | ok u => right; right; simp [refresh_loop, hp]
  | cons sel rest ih =>
    cases hf : env.find_refresh sel with
    | noSuch => simpa [refresh_loop, hf] using ih
    | err m => left; simp [refresh_loop, hf]
    | found d =>
      cases d with
      | true =>
        cases hc : env.click_res with
        | error e => left; simp [refresh_loop, hf, hc]
        | ok u => right; left; simp [refresh_loop, hf, hc]
      | false => simpa [refresh_loop, hf] using ih

/-- Claim C1 (amended): for every driver state, `read_captcha_from_canvas`
returns either `None` or a digit string of length at least 3; the code
enforces only this minimum length, not an exact required code length. -/
theorem C1_read_captcha_none_or_min3_digits (env : CaptchaEnv) :
    read_captcha_from_canvas env = none ∨
    ∃ s, read_captcha_from_canvas env = some s ∧
      3 ≤ s.length ∧ s.data.all Char.isDigit = true := by
  unfold read_captcha_from_canvas read_captcha_run
  rcases read_body_shape env with ⟨e, hb⟩ | ⟨e, hb⟩ | hb | ⟨img, hb⟩
  · rw [hb]; left; rfl
  · rw [hb]; left; rfl
  · rw [hb]; left; rfl
  · rw [hb]
    cases hsl : strat_loop env img strategy_list with
    | none => left; rfl
    | some t =>
      right
      exact ⟨t, rfl, strat_loop_props env img strategy_list t hsl⟩

/-- Claim C1 counterexample: two driver states on which the operation
returns digit strings of lengths 3 and 5, so its results do not all
share one required code length (in particular not the primary required
length 4). -/
theorem C1_counterexample :
    read_captcha_from_canvas (mkOcrEnv ("123")) = some ("123") ∧
    read_captcha_from_canvas (mkOcrEnv ("12345")) = some ("12345") ∧
    ¬ ("12345" : String).length = 4 ∧ ¬ ("123" : String).length = ("12345" : String).length := by
  decide

/-- Claim C10: `read_captcha_from_canvas` is total at its public
interface: whenever its body raises (element lookup, scrolling,
screenshot capture - image processing and OCR failures are already
absorbed inside the strategy loop), the top-level handler returns
`None` instead of propagating the exception. -/
theorem C10_read_captcha_none_on_exception (env : CaptchaEnv) (e : String)
    (h : (read_captcha_body env).1 = Except.error e) :
    read_captcha_from_canvas env = none := by
  unfold read_captcha_from_canvas read_captcha_run
  cases hb : read_captcha_body env with
  | mk r tr =>
    rw [hb] at h
    cases r with
    | error e2 => rfl
    | ok v => cases h

/-- Claim C10 witness: a driver state whose screenshot capture raises;
the body errors and the public operation returns `None`. -/
theorem C10_witness :
    (read_captcha_body shotFailEnv).1 = Except.error ("screenshot failed") ∧
    read_captcha_from_canvas shotFailEnv = none :=
  ⟨rfl, C10_read_captcha_none_on_exception shotFailEnv ("screenshot failed") rfl⟩

lemma extract_loop_findSome (env : CaptchaEnv) (img : Img) :
    ∀ cfgs, extract_loop env img cfgs = cfgs.findSome? (config_accepted env img) := by
  intro cfgs
  induction cfgs with
  | nil => rfl
  | cons c rest ih =>
    cases hocr : env.image_to_string img c with
    | error e =>
      simp [extract_loop, List.findSome?, config_accepted, hocr, ih]
    | ok raw =>
      by_cases hc : (filter_digits (py_strip raw) ≠ "" ∧ 3 ≤ (filter_digits (py_strip raw)).length)
      · simp [extract_loop, List.findSome?, config_accepted, hocr, hc]
      · simp [extract_loop, List.findSome?, config_accepted, hocr, hc, ih]

/-- Claim C5 (amended): whole-image extraction returns the first OCR
configuration result whose digit-stripped text has length at least 3
(not exactly the required code length); every returned string has
length at least 3 and only digits, and when no configuration reaches
length 3 it returns no result. -/
theorem C5_extract_first_accepted (env : CaptchaEnv) (img : Img) :
    extract_text_from_image env img = ocr_configs.findSome? (config_accepted env img) ∧
    (∀ t, extract_text_from_image env img = some t →
      3 ≤ t.length ∧ t.data.all Char.isDigit = true) :=
  ⟨extract_loop_findSome env img ocr_configs,
   fun t h => extract_loop_props env img ocr_configs t h⟩

/-- Claim C5 counterexample: an OCR engine whose every configuration
reads the 3-digit string 123; with required code length 4 the extractor
does not return no result - it accepts the shorter match. -/
theorem C5_counterexample :
    extract_text_from_image (mkOcrEnv ("123")) (Img.mk 0) = some ("123") ∧
    ¬ ("123" : String).length = 4 ∧
    extract_text_from_image (mkOcrEnv ("123")) (Img.mk 0) ≠ none := by decide

/-- Claim C5 witness: the amended theorem applied to a concrete OCR
engine returning 123, discharging the accepted-result hypothesis. -/
theorem C5_witness :
    3 ≤ ("123" : String).length ∧ ("123" : String).data.all Char.isDigit = true :=
  (C5_extract_first_accepted (mkOcrEnv ("123")) (Img.mk 0)).2 ("123") (by decide)

/-- Claim C2 (amended): `refresh_captcha`, when invoked, performs at
most one refresh action, and exactly one when it reports success (a
click on the first displayed refresh control, or a page reload when
none is found); `read_captcha_from_canvas` itself never performs any
refresh action and never retries - it makes a single pass over the
strategies. -/
theorem C2_refresh_behavior (renv : RefreshEnv) (cenv : CaptchaEnv) :
    (refresh_captcha renv).2.countP is_refresh_act ≤ 1 ∧
    ((refresh_captcha renv).1 = true →
      (refresh_captcha renv).2.countP is_refresh_act = 1) ∧
    (read_captcha_run cenv).2.countP is_refresh_act = 0 := by
  refine ⟨?_, ?_, read_run_no_refresh cenv⟩ <;>
    rcases refresh_loop_shape renv refresh_selectors with h | h | h <;>
    unfold refresh_captcha <;> rw [h] <;> decide

/-- Claim C2 counterexample: a driver state on which every recognition
strategy fails; the resolution pass performs zero refresh actions (its
only action is the scroll) and returns `None` after the single pass,
not after 3 refresh-and-retry attempts. -/
theorem C2_counterexample :
    read_captcha_from_canvas allFailOcrEnv = none ∧
    (read_captcha_run allFailOcrEnv).2 = [DriverAct.scrollIntoView] ∧
    (read_captcha_run allFailOcrEnv).2.countP is_refresh_act = 0 := by decide

/-- Claim C2 witness: the amended theorem applied to a refresh
environment with no refresh control (the page is reloaded: one refresh
action) and to the all-failing recognition state. -/
theorem C2_witness :
    (refresh_captcha refreshNoneFoundEnv).2.countP is_refresh_act = 1 ∧
    (read_captcha_run allFailOcrEnv).2.countP is_refresh_act = 0 :=
  ⟨(C2_refresh_behavior refreshNoneFoundEnv allFailOcrEnv).2.1 (by decide),
   (C2_refresh_behavior refreshNoneFoundEnv allFailOcrEnv).2.2⟩

/-- Claim C3 (amended): `select_first_checkbox` reports at most one
selected item (its result is `None`, 0 or 1, never more), and on an
already-selected first checkbox it performs no driver action - but it
returns 1, not 0. -/
theorem C3_select_at_most_one (env : CbEnv) :
    ((select_first_checkbox env).1 = none ∨ (select_first_checkbox env).1 = some 0 ∨
      (select_first_checkbox env).1 = some 1) ∧
    (env.find_checkbox = Except.ok true → select_first_checkbox env = (some 1, [])) := by
  constructor
  · unfold select_first_checkbox
    cases hf : env.find_checkbox with
    | error e => right; left; rfl
    | ok b =>
      cases b with
      | true => right; right; rfl
      | false =>
        cases hs : env.scroll_res with
        | error e => right; left; rfl
        | ok u =>
          cases hl : env.find_label with
          | error e => right; left; rfl
          | ok u2 =>
            cases hlc : env.label_click with
            | error e => right; left; rfl
            | ok u3 =>
              cases hsel : env.selected_after_label with
              | true => right; right; rfl
              | false =>
                cases hdc : env.direct_click with
                | error e => right; left; rfl
                | ok u4 =>
                  cases hsd : env.selected_after_direct with
                  | true => right; right; rfl
                  | false => left; rfl
  · intro hf
    unfold select_first_checkbox
    rw [hf]
    rfl

/-- Claim C3 counterexample: on an already-selected checkbox the
operation is a no-op but reports 1 newly-selected item, not 0. -/
theorem C3_counterexample :
    (select_first_checkbox cbSelEnv).1 = some 1 ∧
    (select_first_checkbox cbSelEnv).1 ≠ some 0 ∧
    (select_first_checkbox cbSelEnv).2 = [] := by decide

/-- Claim C3 witness: the amended theorem applied to the concrete
already-selected state. -/
theorem C3_witness : select_first_checkbox cbSelEnv = (some 1, []) :=
  (C3_select_at_most_one cbSelEnv).2 rfl

/-- Claim C4 (amended): a count transition is logged exactly when the
current count is positive and differs from the tracked previous count;
a transition to zero only resets the tracked count and is never logged
as a change.  Over the counts 0, 3, 3, 0 only the 0-to-3 transition is
logged. -/
theorem C4_change_logged_iff_positive_difference :
    (∀ last current, (monitor_case_step last current).2 =
      if 0 < current ∧ current ≠ last then some (last, current) else none) ∧
    monitor_change_log [0, 3, 3, 0] = [(0, 3)] := by
  constructor
  · intro last current
    unfold monitor_case_step
    by_cases h1 : 0 < current
    · by_cases h2 : current ≠ last
      · simp [h1, h2]
      · simp [h1, h2]
    · simp [h1]
  · decide

/-- Claim C4 counterexample: over the observed counts 0, 3, 3, 0 the
code logs only the 0-to-3 transition; the 3-to-0 transition is not
logged as a change. -/
theorem C4_counterexample :
    monitor_change_log [0, 3, 3, 0] = [(0, 3)] ∧
    (3, 0) ∉ monitor_change_log [0, 3, 3, 0] := by decide

/-- Claim C6: digit segmentation emits candidate digit boxes in
left-to-right order - the x coordinates of the output sequence are
non-decreasing, for every input contour list of every channel. -/
theorem C6_digit_rects_sorted (contours : List Rect) :
    List.Sorted rectLe (channel_digit_rects contours) :=
  List.sorted_insertionSort rectLe (contours.filter digit_size_ok)

/-- Claim C7 (amended): a connected component is kept as a candidate
digit exactly when its width is strictly between 8 and 40 and its
height strictly between 12 and 35 pixels; the boundary sizes 8, 40, 12
and 35 themselves are discarded. -/
theorem C7_size_window (contours : List Rect) (r : Rect) :
    r ∈ channel_digit_rects contours ↔
      r ∈ contours ∧ 8 < r.w ∧ 12 < r.h ∧ r.w < 40 ∧ r.h < 35 := by
  unfold channel_digit_rects
  rw [(List.perm_insertionSort rectLe (contours.filter digit_size_ok)).mem_iff]
  rw [List.mem_filter]
  unfold digit_size_ok
  simp [Bool.and_eq_true, decide_eq_true_eq, and_assoc]

/-- Claim C7 counterexample: a component of width exactly 8 (inside the
claimed 8-40 by 12-35 window) is discarded by the strict
inequalities. -/
theorem C7_counterexample :
    channel_digit_rects [Rect.mk 0 0 8 20] = [] ∧
    8 ≤ (Rect.mk 0 0 8 20).w ∧ (Rect.mk 0 0 8 20).w ≤ 40 ∧
    12 ≤ (Rect.mk 0 0 8 20).h ∧ (Rect.mk 0 0 8 20).h ≤ 35 := by decide

/-- Claim C9: the monitoring loop leaves its `while True` only on a
`KeyboardInterrupt`; any other exception in a cycle is caught and
followed by the recovery sleep, after which the next cycle runs. -/
theorem C9_loop_stops_only_on_interrupt :
    (∀ events : List CycleEvent,
      MonAct.stopLoop ∈ continuous_monitor_trace events ↔
        CycleEvent.interrupt ∈ events) ∧
    (∀ (msg : String) (rest : List CycleEvent),
      continuous_monitor_trace (CycleEvent.error msg :: rest) =
        MonAct.recoverySleep :: continuous_monitor_trace rest) ∧
    (∀ rest : List CycleEvent,
      continuous_monitor_trace (CycleEvent.interrupt :: rest) = [MonAct.stopLoop]) := by
  refine ⟨?_, fun _ _ => rfl, fun _ => rfl⟩
  intro events
  induction events with
  | nil => simp [continuous_monitor_trace]
  | cons e rest ih =>
    cases e with
    | interrupt => simp [continuous_monitor_trace]
    | error m => simp [continuous_monitor_trace, ih]
    | ok => simp [continuous_monitor_trace, ih]

/-- Claim C8 (amended): a manually supplied verification code shorter
than 3 characters (after stripping) is rejected only on the interactive
prompt fallback inside `login` (the `verification_code is None` path):
there the attempt fails and the code is never typed nor submitted.  A
short code passed as the `verification_code` argument - as the
complete-login API endpoint does - bypasses this check. -/
theorem C8_prompt_rejects_short_code (env : LoginEnv) (u p s : String)
    (hm : env.manual_input = ManualRes.entered s) (hlen : (py_strip s).length < 3) :
    (login env u p none).1 = false ∧
    (∀ c, LoginAct.typeVerification c ∉ (login env u p none).2) ∧
    LoginAct.clickSignIn ∉ (login env u p none).2 := by
  have hob : login_obtain_code env none = none := by
    unfold login_obtain_code
    rw [hm]
    have h3 : ¬ (3 ≤ (py_strip s).length) := by omega
    simp [h3]
  unfold login
  cases hn : env.navigate with
  | error e => exact ⟨rfl, by simp, by simp⟩
  | ok u1 =>
    cases hu : find_field_loop env.find_username username_selectors with
    | error e => exact ⟨rfl, by simp, by simp⟩
    | ok ou =>
      cases ou with
      | none => exact ⟨rfl, by simp, by simp⟩
      | some fu =>
        cases hp : find_field_loop env.find_password password_selectors with
        | error e => exact ⟨rfl, by simp, by simp⟩
        | ok op =>
          cases op with
          | none => exact ⟨rfl, by simp, by simp⟩
          | some fp =>
            cases hv : find_field_loop env.find_verification verification_selectors with
            | error e => exact ⟨rfl, by simp, by simp⟩
            | ok ov =>
              cases ov with
              | none => exact ⟨rfl, by simp, by simp⟩
              | some fv =>
                cases htu : env.type_username_res with
                | error e => exact ⟨rfl, by simp, by simp⟩
                | ok u2 =>
                  cases htp : env.type_password_res with
                  | error e => exact ⟨rfl, by simp, by simp⟩
                  | ok u3 =>
                    rw [hob]
                    exact ⟨rfl, by simp, by simp⟩

/-- Claim C8 counterexample: the complete-login API accepts the 2-character
code 12 (it only checks non-emptiness) and `login` types and submits it;
the attempt does not fail as invalid input. -/
theorem C8_counterexample :
    (api_complete_login (loginOkEnv ManualRes.kbInterrupt)
      (some ("u")) (some ("p")) (some ("12"))).1 = true ∧
    LoginAct.typeVerification ("12") ∈
      (api_complete_login (loginOkEnv ManualRes.kbInterrupt)
        (some ("u")) (some ("p")) (some ("12"))).2 ∧
    ("12" : String).length < 3 := by decide

/-- Claim C8 witness: the amended theorem applied to a concrete state
whose interactive prompt yields the 2-character code 12: the login
attempt fails and the sign-in button is never clicked. -/
theorem C8_witness :
    (login (loginOkEnv (ManualRes.entered ("12"))) ("u") ("p") none).1 = false ∧
    LoginAct.clickSignIn ∉ (login (loginOkEnv (ManualRes.entered ("12"))) ("u") ("p") none).2 :=
  ⟨(C8_prompt_rejects_short_code (loginOkEnv (ManualRes.entered ("12")))
      ("u") ("p") ("12") rfl (by decide)).1,
   (C8_prompt_rejects_short_code (loginOkEnv (ManualRes.entered ("12")))
      ("u") ("p") ("12") rfl (by decide)).2.2⟩

end MsForum
